import Mathlib

/-!
# Verification of the otel-demo-lite specification against its sources

Shallow embedding of the repository's services (Go: `checkout.go`,
`shipping.go`, `fraud_detection.go`, cart service; JavaScript: `payment.js`,
`frontend.js`, `email.js`, ad service) and of the W3C-style context
propagation the spec describes.  Randomized values, network outcomes and
request payloads are abstracted into explicit environment records; telemetry
emission (logs, metrics) that no claim touches is elided.  JSON decoding of
response bodies is abstracted: a `CallResult` carries the already-decoded
payload field used by the caller.
-/

namespace OtelDemo

/-- Span status, as in the spec's data model (§3): `status ∈ {unset, ok, error}`. -/
inductive SpanStatus where
  | unset
  | ok
  | error
deriving DecidableEq, Repr

/-- Span kind (server/client/internal/producer/consumer), as in the spec's data model. -/
inductive SpanKind where
  | server
  | client
  | internal
  | producer
  | consumer
deriving DecidableEq, Repr

/-- A recorded span: name, kind, parent link (index into the emitted span list),
events and recorded errors, and status.  Timestamps are elided (no claim is
about real time). -/
structure SpanRec where
  name : String
  kind : SpanKind
  parent : Option Nat
  events : List String
  errors : List String
  status : SpanStatus
deriving DecidableEq, Repr

/-- Modelled from the spec: the span recorder's `record_error` operation (§4.2
"record_error(err) (sets status=error and attaches an exception attribute)").
The recorder implementation (the OpenTelemetry SDK) is not part of this
repository's sources; only its call sites are. -/
def recordError (s : SpanRec) (err : String) : SpanRec :=
  { s with errors := s.errors ++ [err], status := .error }

/-- Modelled from the spec: the span recorder's `add_event` operation (§4.2). -/
def addEvent (s : SpanRec) (e : String) : SpanRec :=
  { s with events := s.events ++ [e] }

/-- Outcome of one outbound HTTP call, as seen by a Go caller of
`client.Do`: either a transport error, or a response with a status code and
the (already JSON-decoded) payload field the caller reads from the body. -/
inductive CallResult where
  | transportError (msg : String)
  | httpResponse (status : Nat) (payload : String)
deriving DecidableEq, Repr

/-- A call "fails" from the checkout orchestrator's point of view when the
transport errors or the response status is not 200 (`checkout.go:363-373`). -/
def callFails : CallResult → Bool
  | .transportError _ => true
  | .httpResponse s _ => s ≠ 200

/-- The downstream steps of the orchestrator, named as the spec's §8 sequence
names them. -/
inductive Step where
  | PrepareCart
  | GetProductDetails
  | ConvertCurrency
  | GetRecommendations
  | GetAds
  | ChargeCard
  | ShipOrder
  | SendEmail
  | PublishEvent
deriving DecidableEq, Repr

/-- Environment of one `placeOrder` run: the outcome of every outbound call
and the randomly generated data (`checkout.go` draws these from `math/rand`
and `uuid`). -/
structure Env where
  cartAdd : CallResult
  cartGet : CallResult
  cartEmpty : CallResult
  productCalls : CallResult
  currencyCall : CallResult
  recommendCall : CallResult
  adsCall : CallResult
  charge : CallResult
  ship : CallResult
  email : CallResult
  accountingCall : CallResult
  fraudCall : CallResult
  userId : String
  currency : String
  orderId : String
  productIds : List String
deriving Repr

/-- Result of `prepareOrderItems` (`checkout.go:243-248`): item count, and the
product ids added to the cart.  Monetary totals are elided (no claim touches
them). -/
structure OrderPrep where
  itemCount : Nat
  productIds : List String
deriving DecidableEq, Repr

/-- `prepareOrderItems` (`checkout.go:250-301`): adds 3 items to the cart,
reads the cart and empties it; failures of the cart calls are only logged as
warnings, and the function returns a non-nil `OrderPrep` with a nil error on
every path. -/
def prepareOrderItems (env : Env) : Except String OrderPrep :=
  .ok { itemCount := 3, productIds := env.productIds }

/-- The child span `prepareOrderItems` starts (`checkout.go:251`); the Go
tracer's default span kind is internal. -/
def prepareSpan : SpanRec :=
  { name := "prepareOrderItemsAndShippingQuoteFromCart", kind := .internal,
    parent := some 0, events := [], errors := [], status := .unset }

/-- `chargeCard` (`checkout.go:349-384`): returns the transaction id on a 200
response, an error on a transport error or any other status. -/
def chargeCard (c : CallResult) : Except String String :=
  match c with
  | .transportError m => .error m
  | .httpResponse s payload =>
      if s ≠ 200 then .error ("payment service returned " ++ toString s)
      else .ok payload

/-- `shipOrder` (`checkout.go:386-420`): returns the tracking id on a 200
response, an error on a transport error or any other status. -/
def shipOrder (c : CallResult) : Except String String :=
  match c with
  | .transportError m => .error m
  | .httpResponse s payload =>
      if s ≠ 200 then .error ("shipping service returned " ++ toString s)
      else .ok payload

/-- `sendOrderConfirmation` (`checkout.go:422-450`): error on transport error
or non-200 status, unit otherwise. -/
def sendOrderConfirmation (c : CallResult) : Except String Unit :=
  match c with
  | .transportError m => .error m
  | .httpResponse s _ =>
      if s ≠ 200 then .error ("email service returned " ++ toString s)
      else .ok ()

/-- Child span of a named kind under the root. -/
def childSpan (name : String) (kind : SpanKind) : SpanRec :=
  { name := name, kind := kind, parent := some 0, events := [], errors := [],
    status := .unset }

/-- The soft-step client spans of `placeOrder` (`checkout.go:484-573`): the
product/currency/recommendation/ads helpers swallow every call failure (they
log a warning and return), so each contributes its span and nothing else. -/
def softSpans : List SpanRec :=
  [childSpan "getProductDetails" .client,
   childSpan "getCurrencyConversion" .client,
   childSpan "getRecommendations" .client,
   childSpan "getAds" .client]

/-- One `placeOrder` run: the steps invoked in order, the final state of the
root span, and the child spans started (root is index 0 of `root :: children`). -/
structure OrchRun where
  steps : List Step
  root : SpanRec
  children : List SpanRec
deriving Repr

/-- `placeOrder` (`checkout.go:120-241`), batch mode: the root span is started
by the orchestrator itself with kind server (`checkout.go:128`).  The control
flow mirrors the source exactly: a `prepareOrderItems` error would record the
error and return (dead branch, kept for faithfulness); the four soft steps
always continue; a `chargeCard` or `shipOrder` failure records the error on
the root span and returns, skipping the remaining steps; an email failure is
only logged as a warning and the run continues (the `email_sent` event is
added unconditionally, as in the source); `publishToKafka` ignores the
outcomes of its two consume calls. -/
def placeOrder (env : Env) : OrchRun :=
  let root0 : SpanRec :=
    { name := "PlaceOrder", kind := .server, parent := none, events := [],
      errors := [], status := .unset }
  match prepareOrderItems env with
  | .error e =>
      { steps := [.PrepareCart], root := recordError root0 e,
        children := [prepareSpan] }
  | .ok _prep =>
    let root1 := addEvent root0 "prepared"
    let root2 := addEvent root1 "product_details_fetched"
    let root3 := addEvent root2 "currency_converted"
    let root4 := addEvent root3 "recommendations_fetched"
    let root5 := addEvent root4 "ads_fetched"
    let stepsSoft : List Step :=
      [.PrepareCart, .GetProductDetails, .ConvertCurrency,
       .GetRecommendations, .GetAds]
    let childrenSoft := prepareSpan :: softSpans
    match chargeCard env.charge with
    | .error e =>
        { steps := stepsSoft ++ [.ChargeCard], root := recordError root5 e,
          children := childrenSoft ++ [childSpan "chargeCard" .internal] }
    | .ok _tx =>
      let root6 := addEvent root5 "charged"
      match shipOrder env.ship with
      | .error e =>
          { steps := stepsSoft ++ [.ChargeCard, .ShipOrder],
            root := recordError root6 e,
            children := childrenSoft ++
              [childSpan "chargeCard" .internal, childSpan "shipOrder" .internal] }
      | .ok _tracking =>
        let root7 := addEvent root6 "shipped"
        let root8 := addEvent root7 "email_sent"
        let root9 := addEvent root8 "published_to_kafka"
        { steps := stepsSoft ++
            [.ChargeCard, .ShipOrder, .SendEmail, .PublishEvent],
          root := root9,
          children := childrenSoft ++
            [childSpan "chargeCard" .internal, childSpan "shipOrder" .internal,
             childSpan "sendOrderConfirmation" .internal,
             childSpan "orders publish" .producer] }

/-- An HTTP response of the checkout server. -/
structure HttpDown where
  status : Nat
  body : String
deriving DecidableEq, Repr

/-- The `/checkout` handler of `InitCheckoutServer` (`checkout.go:93-102`):
runs `placeOrder` and then unconditionally writes status 200 and the fixed
success body — the handler never inspects the outcome of `placeOrder`. -/
def handleCheckout (env : Env) : HttpDown :=
  let _run := placeOrder env
  { status := 200, body := "\x7b\"status\": \"order_placed\"\x7d" }

/-- The span list of a run, root first. -/
def spans (r : OrchRun) : List SpanRec := r.root :: r.children

/-- A successful downstream response with a generic payload. -/
def okCall : CallResult := .httpResponse 200 "payload"

/-- Concrete run environment where only the payment call fails. -/
def envChargeFail : Env :=
  { cartAdd := okCall, cartGet := okCall, cartEmpty := okCall,
    productCalls := okCall, currencyCall := okCall, recommendCall := okCall,
    adsCall := okCall, charge := .transportError "connection refused",
    ship := okCall, email := okCall, accountingCall := okCall,
    fraudCall := okCall, userId := "user-1", currency := "USD",
    orderId := "order-1",
    productIds := ["OLJCESPC7Z", "66VCHSJNUP", "1YMWWN1N4O"] }

/-- Concrete run environment where only the ads call fails. -/
def envAdsFail : Env :=
  { cartAdd := okCall, cartGet := okCall, cartEmpty := okCall,
    productCalls := okCall, currencyCall := okCall, recommendCall := okCall,
    adsCall := .transportError "connection refused",
    charge := okCall, ship := okCall, email := okCall,
    accountingCall := okCall, fraudCall := okCall, userId := "user-2",
    currency := "EUR", orderId := "order-2",
    productIds := ["OLJCESPC7Z", "66VCHSJNUP", "1YMWWN1N4O"] }

/-- Concrete run environment where every call succeeds. -/
def envAllOk : Env :=
  { cartAdd := okCall, cartGet := okCall, cartEmpty := okCall,
    productCalls := okCall, currencyCall := okCall, recommendCall := okCall,
    adsCall := okCall, charge := okCall, ship := okCall, email := okCall,
    accountingCall := okCall, fraudCall := okCall, userId := "user-3",
    currency := "GBP", orderId := "order-3",
    productIds := ["OLJCESPC7Z", "66VCHSJNUP", "1YMWWN1N4O"] }

lemma chargeCard_of_fails (c : CallResult) (h : callFails c = true) :
    ∃ m, chargeCard c = Except.error m := by
  cases c with
  | transportError m => exact ⟨m, rfl⟩
  | httpResponse s p =>
      have hs : s ≠ 200 := by simpa [callFails] using h
      exact ⟨"payment service returned " ++ toString s, by simp [chargeCard, hs]⟩

lemma chargeCard_of_ok (c : CallResult) (h : callFails c = false) :
    ∃ t, chargeCard c = Except.ok t := by
  cases c with
  | transportError m => simp [callFails] at h
  | httpResponse s p =>
      have hs : s = 200 := by
        by_contra hne
        simp [callFails, hne] at h
      exact ⟨p, by simp [chargeCard, hs]⟩

lemma shipOrder_of_fails (c : CallResult) (h : callFails c = true) :
    ∃ m, shipOrder c = Except.error m := by
  cases c with
  | transportError m => exact ⟨m, rfl⟩
  | httpResponse s p =>
      have hs : s ≠ 200 := by simpa [callFails] using h
      exact ⟨"shipping service returned " ++ toString s, by simp [shipOrder, hs]⟩

lemma shipOrder_of_ok (c : CallResult) (h : callFails c = false) :
    ∃ t, shipOrder c = Except.ok t := by
  cases c with
  | transportError m => simp [callFails] at h
  | httpResponse s p =>
      have hs : s = 200 := by
        by_contra hne
        simp [callFails, hne] at h
      exact ⟨p, by simp [shipOrder, hs]⟩

/-- C1: when the ChargeCard step fails (transport error or non-200 status),
the orchestrator never invokes ShipOrder, SendEmail or PublishEvent for the
transaction, and the root span's status is error (the error is recorded on
the root span, whose `record_error` is modelled from spec §4.2). -/
theorem placeOrder_charge_failure_skips_rest (env : Env)
    (h : callFails env.charge = true) :
    Step.ShipOrder ∉ (placeOrder env).steps ∧
    Step.SendEmail ∉ (placeOrder env).steps ∧
    Step.PublishEvent ∉ (placeOrder env).steps ∧
    (placeOrder env).root.status = SpanStatus.error := by
  obtain ⟨m, hm⟩ := chargeCard_of_fails env.charge h
  simp [placeOrder, prepareOrderItems, hm, recordError, addEvent]

/-- C1 witness: the theorem applied to a concrete run where the payment call
is a transport error. -/
theorem placeOrder_charge_failure_skips_rest_witness :
    callFails envChargeFail.charge = true ∧
    (Step.ShipOrder ∉ (placeOrder envChargeFail).steps ∧
     Step.SendEmail ∉ (placeOrder envChargeFail).steps ∧
     Step.PublishEvent ∉ (placeOrder envChargeFail).steps ∧
     (placeOrder envChargeFail).root.status = SpanStatus.error) :=
  ⟨by decide, placeOrder_charge_failure_skips_rest envChargeFail (by decide)⟩

/-- C2 counterexample: with the payment call failing (a hard-fail step), the
checkout server's response is still HTTP 200 with the fixed success body, not
a non-2xx error response — the handler (`checkout.go:93-102`) never inspects
the outcome of `placeOrder`. -/
theorem handleCheckout_200_despite_charge_failure :
    callFails envChargeFail.charge = true ∧
    (handleCheckout envChargeFail).status = 200 ∧
    (handleCheckout envChargeFail).body = "\x7b\"status\": \"order_placed\"\x7d" :=
  ⟨by decide, rfl, rfl⟩

/-- C2 (amended): when a hard-fail step (ChargePayment or ShipOrder) fails,
the orchestrator's HTTP response to the caller is nevertheless 200 with the
fixed success body; the failure only aborts the remaining internal sequence
and is recorded on the root span. -/
theorem handleCheckout_always_200 (env : Env)
    (_h : callFails env.charge = true ∨ callFails env.ship = true) :
    (handleCheckout env).status = 200 ∧
    (handleCheckout env).body = "\x7b\"status\": \"order_placed\"\x7d" :=
  ⟨rfl, rfl⟩

/-- C2 (amended) witness: applied to the concrete run with a failing payment
call. -/
theorem handleCheckout_always_200_witness :
    (callFails envChargeFail.charge = true ∨
     callFails envChargeFail.ship = true) ∧
    ((handleCheckout envChargeFail).status = 200 ∧
     (handleCheckout envChargeFail).body = "\x7b\"status\": \"order_placed\"\x7d") :=
  ⟨Or.inl (by decide), handleCheckout_always_200 envChargeFail (Or.inl (by decide))⟩

/-- C3 counterexample: in a run where only the ads call fails, the root span
ends with status unset, not ok — nowhere does `checkout.go` set the root span
status to ok. -/
theorem placeOrder_ads_failure_root_not_ok :
    callFails envAdsFail.adsCall = true ∧
    callFails envAdsFail.charge = false ∧
    callFails envAdsFail.ship = false ∧
    (placeOrder envAdsFail).root.status = SpanStatus.unset ∧
    (placeOrder envAdsFail).root.status ≠ SpanStatus.ok := by
  decide

/-- C3 (amended): when the FetchAds step fails and the hard-fail steps
succeed, all subsequent steps (ChargeCard, ShipOrder, SendEmail,
PublishEvent) still execute, and the root span ends without error status —
its status remains unset, the default non-error state (no code path sets it
to ok). -/
theorem placeOrder_ads_failure_soft (env : Env)
    (_ha : callFails env.adsCall = true)
    (hc : callFails env.charge = false)
    (hs : callFails env.ship = false) :
    Step.ChargeCard ∈ (placeOrder env).steps ∧
    Step.ShipOrder ∈ (placeOrder env).steps ∧
    Step.SendEmail ∈ (placeOrder env).steps ∧
    Step.PublishEvent ∈ (placeOrder env).steps ∧
    (placeOrder env).root.status = SpanStatus.unset := by
  obtain ⟨t, ht⟩ := chargeCard_of_ok env.charge hc
  obtain ⟨k, hk⟩ := shipOrder_of_ok env.ship hs
  simp [placeOrder, prepareOrderItems, ht, hk, addEvent]

/-- C3 (amended) witness: applied to the concrete run with a failing ads
call. -/
theorem placeOrder_ads_failure_soft_witness :
    callFails envAdsFail.adsCall = true ∧
    (Step.ChargeCard ∈ (placeOrder envAdsFail).steps ∧
     Step.ShipOrder ∈ (placeOrder envAdsFail).steps ∧
     Step.SendEmail ∈ (placeOrder envAdsFail).steps ∧
     Step.PublishEvent ∈ (placeOrder envAdsFail).steps ∧
     (placeOrder envAdsFail).root.status = SpanStatus.unset) :=
  ⟨by decide,
   placeOrder_ads_failure_soft envAdsFail (by decide) (by decide) (by decide)⟩

/-- C4: in a successful checkout transaction (hard-fail steps succeed), the
orchestrator performs exactly the fixed sequence PrepareCart,
GetProductDetails, ConvertCurrency, GetRecommendations, GetAds, ChargeCard,
ShipOrder, SendEmail, PublishEvent in this order, and the emitted span tree
has exactly one root span, of kind server. -/
theorem placeOrder_success_sequence (env : Env)
    (hc : callFails env.charge = false)
    (hs : callFails env.ship = false) :
    (placeOrder env).steps =
      [Step.PrepareCart, Step.GetProductDetails, Step.ConvertCurrency,
       Step.GetRecommendations, Step.GetAds, Step.ChargeCard, Step.ShipOrder,
       Step.SendEmail, Step.PublishEvent] ∧
    (placeOrder env).root.parent = none ∧
    (placeOrder env).root.kind = SpanKind.server ∧
    (spans (placeOrder env)).countP (fun s => s.parent.isNone) = 1 := by
  obtain ⟨t, ht⟩ := chargeCard_of_ok env.charge hc
  obtain ⟨k, hk⟩ := shipOrder_of_ok env.ship hs
  simp [placeOrder, prepareOrderItems, ht, hk, addEvent, spans, softSpans,
    prepareSpan, childSpan, List.countP, List.countP.go]

/-- C4 witness: applied to the concrete all-successful run. -/
theorem placeOrder_success_sequence_witness :
    callFails envAllOk.charge = false ∧
    ((placeOrder envAllOk).steps =
      [Step.PrepareCart, Step.GetProductDetails, Step.ConvertCurrency,
       Step.GetRecommendations, Step.GetAds, Step.ChargeCard, Step.ShipOrder,
       Step.SendEmail, Step.PublishEvent] ∧
     (placeOrder envAllOk).root.parent = none ∧
     (placeOrder envAllOk).root.kind = SpanKind.server ∧
     (spans (placeOrder envAllOk)).countP (fun s => s.parent.isNone) = 1) :=
  ⟨by decide, placeOrder_success_sequence envAllOk (by decide) (by decide)⟩

/-! ## Cart service (src/unnamed/part_002)

The cart handlers are thin wrappers over three Redis commands on the hash at
key `cart:<user_id>`: `HSET` (add item), `HGETALL` (get cart) and `DEL`
(empty cart).  The store is modelled as a map from Redis key to field map; a
missing key behaves as an empty hash, which is exactly `HGETALL`/`DEL`
semantics on an absent key. -/

/-- The Redis-backed store: key to hash fields (field name to the quantity
stored in the serialized `CartItem`). -/
def CartStore := String → List (String × Nat)

/-- `HSET key field value`: overwrite the field if present, append it
otherwise. -/
def setField : List (String × Nat) → String → Nat → List (String × Nat)
  | [], k, v => [(k, v)]
  | (k', v') :: t, k, v =>
      if k' = k then (k, v) :: t else (k', v') :: setField t k v

/-- Field lookup in a hash. -/
def getField : List (String × Nat) → String → Option Nat
  | [], _ => none
  | (k', v') :: t, k => if k' = k then some v' else getField t k

/-- `HSET` on the store. -/
def hset (st : CartStore) (key f : String) (v : Nat) : CartStore :=
  fun k => if k = key then setField (st k) f v else st k

/-- `DEL` on the store: the key afterwards reads as an empty hash. -/
def del (st : CartStore) (key : String) : CartStore :=
  fun k => if k = key then [] else st k

/-- The cart key for a user (`part_002:159`). -/
def cartKey (u : String) : String := "cart:" ++ u

/-- `addItemHandler` (`part_002:133-185`): `HSET cart:<user> <product>
<item>` where the item carries the quantity; responds 200. -/
def addItemHandler (st : CartStore) (userId productId : String)
    (quantity : Nat) : CartStore :=
  hset st (cartKey userId) productId quantity

/-- The total item count `getCartHandler` computes (`part_002:210-216`): the
sum of the quantities of all fields of the user's hash. -/
def sumQuantities (l : List (String × Nat)) : Nat :=
  l.foldr (fun kv acc => kv.2 + acc) 0

/-- `getCartHandler` (`part_002:187-233`): `HGETALL cart:<user>` and sum the
quantities; the response reports this `items_count`. -/
def getCartHandler (st : CartStore) (userId : String) : Nat :=
  sumQuantities (st (cartKey userId))

/-- `emptyCartHandler` (`part_002:235-265`): `DEL cart:<user>`. -/
def emptyCartHandler (st : CartStore) (userId : String) : CartStore :=
  del st (cartKey userId)

lemma getField_setField (l : List (String × Nat)) (k : String) (v : Nat) :
    getField (setField l k v) k = some v := by
  induction l with
  | nil => simp [setField, getField]
  | cons hd t ih =>
      obtain ⟨k', v'⟩ := hd
      by_cases hk : k' = k
      · simp [setField, hk, getField]
      · simp [setField, hk, getField, ih]

lemma le_sumQuantities_setField (l : List (String × Nat)) (k : String)
    (v : Nat) : v ≤ sumQuantities (setField l k v) := by
  induction l with
  | nil => simp [setField, sumQuantities]
  | cons hd t ih =>
      obtain ⟨k', v'⟩ := hd
      by_cases hk : k' = k
      · simp [setField, hk, sumQuantities]
      · simp only [setField, hk, if_false, sumQuantities, List.foldr_cons]
        exact le_trans ih (Nat.le_add_left _ _)

/-- C5: for every user and product, AddItem followed by GetCart yields a cart
that reflects the added product — its hash holds the product with the added
quantity and the reported item count includes that quantity — and EmptyCart
followed by GetCart yields zero items; the store is a per-user key/value
map. -/
theorem cart_addItem_getCart_emptyCart (st : CartStore) (u p : String)
    (q : Nat) :
    getField (addItemHandler st u p q (cartKey u)) p = some q ∧
    q ≤ getCartHandler (addItemHandler st u p q) u ∧
    getCartHandler (emptyCartHandler st u) u = 0 := by
  refine ⟨?_, ?_, ?_⟩
  · simp [addItemHandler, hset, getField_setField]
  · simp only [getCartHandler, addItemHandler, hset, if_pos rfl]
    exact le_sumQuantities_setField _ _ _
  · simp [getCartHandler, emptyCartHandler, del, sumQuantities]

/-! ## Payment (src/javascript/payment.js) and fraud detection
(src/go/services/fraud_detection.go) endpoints -/

/-- Summary of one endpoint invocation: HTTP status written, final status of
the span owned by the handler, and the events it added. -/
structure EndpointResult where
  httpStatus : Nat
  spanStatus : SpanStatus
  events : List String
deriving DecidableEq, Repr

/-- `handleCharge` (`payment.js:30-92`): with probability 0.05 the charge
fails — the span records the exception, its status is set to error, a
`payment_failed` event is added and the response is 402; otherwise a
`payment_successful` event is added and the response is 200 (the span status
is never set on the success path). `fail` is the outcome of the
`Math.random() < 0.05` draw. -/
def handleCharge (fail : Bool) : EndpointResult :=
  if fail then
    { httpStatus := 402, spanStatus := .error, events := ["payment_failed"] }
  else
    { httpStatus := 200, spanStatus := .unset, events := ["payment_successful"] }

/-- Result of a `/consume` request to fraud detection: HTTP status, status of
the otelhttp server span, and the final state of the `detectFraud` child
span. -/
structure FraudResult where
  httpStatus : Nat
  serverSpanStatus : SpanStatus
  detectSpanStatus : SpanStatus
  detectEvents : List String
deriving DecidableEq, Repr

/-- `handleFraudConsume` + `detectFraud` (`fraud_detection.go:70-138`):
`isFraud` is the outcome of the `rand.Float32() < 0.02` draw.  Whatever the
outcome, the handler writes 200; the fraud branch only increments a counter,
adds a `fraud_detected` event and logs a warning — no span status is set and
no error response is produced. -/
def handleFraudConsume (isFraud : Bool) : FraudResult :=
  { httpStatus := 200, serverSpanStatus := .unset, detectSpanStatus := .unset,
    detectEvents := if isFraud then ["fraud_detected"] else ["order_cleared"] }

/-- C7 counterexample: on the fraud-detection fraud outcome (the 2% branch),
the endpoint returns HTTP 200 — not a non-2xx status — and neither its server
span nor the `detectFraud` span is set to error, contradicting the claim for
the fraud-detection endpoint. -/
theorem fraud_outcome_returns_200_without_error_status :
    (handleFraudConsume true).httpStatus = 200 ∧
    (handleFraudConsume true).serverSpanStatus ≠ SpanStatus.error ∧
    (handleFraudConsume true).detectSpanStatus ≠ SpanStatus.error ∧
    (handleFraudConsume true).detectEvents = ["fraud_detected"] := by
  decide

/-- C7 (amended): a failing payment charge (the 5% branch) sets its server
span status to error and returns the non-2xx status 402; the fraud-detection
fraud outcome (the 2% branch) only records a `fraud_detected` event — the
endpoint returns HTTP 200 for every outcome and never sets a span status to
error. -/
theorem payment_fails_with_error_fraud_always_200 :
    (handleCharge true).httpStatus = 402 ∧
    (handleCharge true).spanStatus = SpanStatus.error ∧
    (∀ b, (handleFraudConsume b).httpStatus = 200 ∧
      (handleFraudConsume b).serverSpanStatus = SpanStatus.unset ∧
      (handleFraudConsume b).detectSpanStatus = SpanStatus.unset) := by
  refine ⟨rfl, rfl, ?_⟩
  intro b
  exact ⟨rfl, rfl, rfl⟩

/-! ## Health routes (C8)

Dispatch tables of every service's HTTP server, as registered in the
sources.  Go's `ServeMux` matches a pattern ending in `/` as a prefix and
any other pattern exactly, and responds 404 when nothing matches; the
JavaScript servers branch on the pathname explicitly and fall through to a
404 response. -/

/-- Character-list prefix test (used to model `ServeMux` path prefixes). -/
def listPrefix : List Char → List Char → Bool
  | [], _ => true
  | _ :: _, [] => false
  | a :: as, b :: bs => a = b && listPrefix as bs

/-- Whether `p` is a prefix of `s`. -/
def strHasPrefix (p s : String) : Bool := listPrefix p.data s.data

/-- Whether `p` is a suffix of `s`. -/
def strHasSuffix (p s : String) : Bool :=
  listPrefix p.data.reverse s.data.reverse

/-- Go `ServeMux` matching for a pattern list: a pattern ending in `/`
matches by prefix, any other pattern matches exactly. -/
def goMuxMatches (patterns : List String) (path : String) : Bool :=
  patterns.any (fun p => if strHasSuffix "/" p then strHasPrefix p path else p = path)

/-- Patterns registered by the cart service (`part_002:121-124`). -/
def cartPatterns : List String := ["/cart/add", "/cart", "/cart/empty"]

/-- Patterns registered by the shipping service (`shipping.go:66-68`). -/
def shippingPatterns : List String := ["/ship", "/get-quote"]

/-- Patterns registered by the product-catalog service (`part_003:80-83`). -/
def productPatterns : List String := ["/products", "/products/", "/products/search"]

/-- Patterns registered by the currency service (`currency.go:63-65`). -/
def currencyPatterns : List String := ["/convert", "/currencies"]

/-- The fixed health body the services that do expose `/health` return. -/
def healthBody : String := "\x7b\"status\":\"ok\"\x7d"

/-- Checkout server dispatch (`checkout.go:104-109`): `/checkout`,
`/health`, else 404. -/
def checkoutDispatch (path : String) (env : Env) : HttpDown :=
  if path = "/checkout" then handleCheckout env
  else if path = "/health" then { status := 200, body := healthBody }
  else { status := 404, body := "404 page not found" }

/-- Fraud-detection server dispatch (`fraud_detection.go:48-58`). -/
def fraudDispatch (path : String) (isFraud : Bool) : HttpDown :=
  if path = "/consume" then
    { status := (handleFraudConsume isFraud).httpStatus, body := "scanned" }
  else if path = "/health" then { status := 200, body := healthBody }
  else { status := 404, body := "404 page not found" }

/-- Accounting server dispatch (`fraud_detection.go`, second unit,
`InitAccountingService`): `/consume`, `/health`, else 404. -/
def accountingDispatch (path : String) : HttpDown :=
  if path = "/consume" then { status := 200, body := "processed" }
  else if path = "/health" then { status := 200, body := healthBody }
  else { status := 404, body := "404 page not found" }

/-- Payment server dispatch (`payment.js:18-28`): only `POST /charge` is
handled; every other request — including `GET /health` — gets 404. -/
def paymentDispatch (method path : String) (fail : Bool) : HttpDown :=
  if path = "/charge" ∧ method = "POST" then
    { status := (handleCharge fail).httpStatus, body := "charge" }
  else { status := 404, body := "\x7b\"error\":\"Not found\"\x7d" }

/-- Email server dispatch (`email.js:15-25`): only `POST /send` is handled,
else 404. -/
def emailDispatch (method path : String) (fail : Bool) : HttpDown :=
  if path = "/send" ∧ method = "POST" then
    { status := if fail then 500 else 200, body := "send" }
  else { status := 404, body := "\x7b\"error\":\"Not found\"\x7d" }

/-- Ad server dispatch (`part_000:21-31`): `/ads` and `/` are handled, else
404. -/
def adDispatch (path : String) : HttpDown :=
  if path = "/ads" ∨ path = "/" then { status := 200, body := "ads" }
  else { status := 404, body := "\x7b\"error\":\"Not found\"\x7d" }

/-- C8 counterexample: the payment service endpoint has no `/health` route —
`GET /health` is answered with 404 and a not-found body, so not every service
endpoint exposes a 200 `/health`. -/
theorem payment_has_no_health_route :
    (paymentDispatch "GET" "/health" false).status = 404 ∧
    (paymentDispatch "GET" "/health" false).status ≠ 200 ∧
    (paymentDispatch "GET" "/health" false).body = "\x7b\"error\":\"Not found\"\x7d" := by
  decide

/-! ## Shipping service (src/go/services/shipping.go)

Monetary amounts are modelled as rationals; the claims about this service
concern control flow (error-nullness), not floating-point arithmetic. -/

/-- Environment of one shipping request: whether building the outbound quote
request fails, whether the HTTP call to the external quote service fails, the
`rand.Intn(300)` draw and the generated tracking id. -/
structure ShippingEnv where
  newRequestFails : Bool
  quoteCallFails : Bool
  quoteRand : Nat
  trackingId : String
deriving Repr

/-- `calculateQuoteLocally` (`shipping.go:191-214`): the local fallback,
`5.99 + count*1.50 + rand/100`, always returned with a nil error. -/
def calculateQuoteLocally (count : Nat) (r : Nat) : Except String ℚ :=
  .ok ((599 : ℚ) / 100 + (count : ℚ) * ((3 : ℚ) / 2) + (r : ℚ) / 100)

/-- `createQuoteFromCount` (`shipping.go:139-189`): if building the request
or calling the external quote service fails, fall back to
`calculateQuoteLocally`; otherwise return the (randomized) quote with a nil
error.  No path returns a non-nil error. -/
def createQuoteFromCount (e : ShippingEnv) (count : Nat) : Except String ℚ :=
  if e.newRequestFails then calculateQuoteLocally count e.quoteRand
  else if e.quoteCallFails then calculateQuoteLocally count e.quoteRand
  else .ok ((599 : ℚ) / 100 + (count : ℚ) * ((3 : ℚ) / 2) + (e.quoteRand : ℚ) / 100)

/-- `shipHandler` (`shipping.go:77-113`): on a quote error respond 500
without a tracking id; otherwise respond 200 with a fresh tracking id. -/
def shipHandler (e : ShippingEnv) (itemCount : Nat) : Nat × Option String :=
  match createQuoteFromCount e itemCount with
  | .error _ => (500, none)
  | .ok _q => (200, some e.trackingId)

/-- C9: `createQuoteFromCount` returns a nil error on every path (external
quote service unreachable falls back to the local calculation), so the 500
branch of the `/ship` handler is unreachable and every `/ship` request is
answered with HTTP 200 and a tracking id. -/
theorem shipHandler_always_200 (e : ShippingEnv) (itemCount : Nat) :
    (∃ q, createQuoteFromCount e itemCount = Except.ok q) ∧
    (shipHandler e itemCount).1 = 200 ∧
    (shipHandler e itemCount).2 = some e.trackingId := by
  obtain ⟨nr⟩ := e
  cases nr <;> rename_i qf r t <;> cases qf <;>
    simp [createQuoteFromCount, calculateQuoteLocally, shipHandler]

/-! ## Frontend service (src/javascript/frontend.js) -/

/-- Outcome of the downstream HTTP request issued by `makeRequest`: a
response (with the accumulated body data), a transport error, or a
timeout. -/
inductive FetchOutcome where
  | response (status : Nat) (data : String)
  | transportError (msg : String)
  | timeout
deriving DecidableEq, Repr

/-- A settled JavaScript promise. -/
inductive PromiseResult where
  | resolved (value : String)
  | rejected (err : String)
deriving DecidableEq, Repr

/-- The error body `JSON.stringify(\x7b error: err.message \x7d)` produces for a
plain message. -/
def jsonErrorBody (m : String) : String := "\x7b\"error\":\"" ++ m ++ "\"\x7d"

/-- `makeRequest` (`frontend.js:107-152`): the promise executor only ever
calls `resolve` — with the response data (or an empty JSON object) on end,
with a JSON error body on a transport error, and with a fixed timeout body on
timeout. -/
def makeRequest (o : FetchOutcome) : PromiseResult :=
  match o with
  | .response _ d => .resolved (if d = "" then "\x7b\x7d" else d)
  | .transportError m => .resolved (jsonErrorBody m)
  | .timeout => .resolved "\x7b\"error\":\"timeout\"\x7d"

/-- How an `/api` route of the frontend turns the awaited `makeRequest`
result into a response (`frontend.js:50-87,94-101`): a resolved value is
written with status 200; a rejection would propagate to the catch block and
be written with status 500. -/
def respondWith : PromiseResult → HttpDown
  | .resolved v => { status := 200, body := v }
  | .rejected e => { status := 500, body := jsonErrorBody e }

/-- The frontend request dispatcher (`frontend.js:25-105`). -/
def frontendRespond (path : String) (o : FetchOutcome) : HttpDown :=
  if path = "/health" then { status := 200, body := healthBody }
  else if path = "/" ∨ path = "/index.html" then
    { status := 200, body := "<html><body><h1>OTel Demo Frontend</h1></body></html>" }
  else if path = "/api/products" then respondWith (makeRequest o)
  else if strHasPrefix "/api/products/" path then respondWith (makeRequest o)
  else if path = "/api/cart" then respondWith (makeRequest o)
  else if path = "/api/recommendations" then respondWith (makeRequest o)
  else if path = "/api/checkout" then respondWith (makeRequest o)
  else if path = "/api/ads" then respondWith (makeRequest o)
  else if path = "/api/currencies" then respondWith (makeRequest o)
  else { status := 404, body := "\x7b\"error\":\"Not found\"\x7d" }

/-- Whether a path is one of the frontend's `/api` routes, with exactly the
conditions of the dispatcher. -/
def isApiPath (path : String) : Bool :=
  path = "/api/products" ∨ strHasPrefix "/api/products/" path ∨
  path = "/api/cart" ∨ path = "/api/recommendations" ∨
  path = "/api/checkout" ∨ path = "/api/ads" ∨ path = "/api/currencies"

/-- C10: `makeRequest` never rejects its promise — every downstream outcome
(response, transport error, timeout) resolves it with a body — so every
`/api` route of the frontend responds with HTTP 200 whatever the downstream
outcome; the 500 branch is reachable only through exceptions thrown
elsewhere, which the dispatcher model has none of. -/
theorem frontend_api_always_200 (path : String) (o : FetchOutcome)
    (h : isApiPath path = true) :
    (∃ v, makeRequest o = PromiseResult.resolved v) ∧
    (frontendRespond path o).status = 200 := by
  constructor
  · cases o <;> simp [makeRequest]
  · have hmk : ∀ oo, (respondWith (makeRequest oo)).status = 200 := by
      intro oo
      cases oo <;> simp [makeRequest, respondWith]
    unfold frontendRespond
    simp only [isApiPath, Bool.or_eq_true, decide_eq_true_eq] at h
    split_ifs <;> first | rfl | exact hmk o | (exfalso; tauto)

/-- C10 witness: the `/api/checkout` route with a refused downstream
connection still responds 200. -/
theorem frontend_api_always_200_witness :
    isApiPath "/api/checkout" = true ∧
    ((∃ v, makeRequest (FetchOutcome.transportError "ECONNREFUSED") =
        PromiseResult.resolved v) ∧
     (frontendRespond "/api/checkout"
        (FetchOutcome.transportError "ECONNREFUSED")).status = 200) :=
  ⟨by decide,
   frontend_api_always_200 "/api/checkout"
     (FetchOutcome.transportError "ECONNREFUSED") (by decide)⟩

/-- Browser-simulator server dispatch (`part_000:339-353`, the second unit of
that file): `/health` answers the fixed ok payload; `/trigger` and `/` run
one simulation iteration and answer its `\x7b success, page \x7d` result with 200;
everything else gets 404 with a plain not-found body. -/
def browserSimDispatch (path : String) : HttpDown :=
  if path = "/health" then { status := 200, body := healthBody }
  else if path = "/trigger" ∨ path = "/" then
    { status := 200, body := "\x7b\"success\":true,\"page\":\"/checkout\"\x7d" }
  else { status := 404, body := "Not found" }

/-- C8 (amended): the frontend, checkout, accounting, fraud-detection and
browser-simulator servers expose `/health` returning the fixed JSON ok
payload with status 200, but the payment, email and ad services answer 404 on
`/health`, and the cart, shipping, product-catalog and currency muxes have no
pattern matching `/health` (so Go's `ServeMux` answers 404 there too). -/
theorem health_routes_partial (env : Env) (b fail : Bool) (o : FetchOutcome) :
    (frontendRespond "/health" o).status = 200 ∧
    (frontendRespond "/health" o).body = healthBody ∧
    (browserSimDispatch "/health").status = 200 ∧
    (browserSimDispatch "/health").body = healthBody ∧
    (checkoutDispatch "/health" env).status = 200 ∧
    (checkoutDispatch "/health" env).body = healthBody ∧
    (fraudDispatch "/health" b).status = 200 ∧
    (fraudDispatch "/health" b).body = healthBody ∧
    (accountingDispatch "/health").status = 200 ∧
    (accountingDispatch "/health").body = healthBody ∧
    (paymentDispatch "GET" "/health" fail).status = 404 ∧
    (emailDispatch "GET" "/health" fail).status = 404 ∧
    (adDispatch "/health").status = 404 ∧
    goMuxMatches cartPatterns "/health" = false ∧
    goMuxMatches shippingPatterns "/health" = false ∧
    goMuxMatches productPatterns "/health" = false ∧
    goMuxMatches currencyPatterns "/health" = false := by
  refine ⟨rfl, rfl, rfl, rfl, rfl, rfl, rfl, rfl, rfl, rfl, rfl, rfl, rfl,
    ?_, ?_, ?_, ?_⟩ <;> decide

/-! ## Context propagation (C6)

Modelled from the spec: both runtimes configure a composite propagator of the
W3C trace-context and W3C baggage encodings (`telemetry.js:49-53`,
`part_001:52-55`), but the propagator implementation itself is library code,
not part of this repository's sources.  Following spec §4.1 and §6, the
trace-context header is the hyphen-delimited `version-traceid-spanid-flags`
format with lowercase fixed-width hex fields (version `00`), and the baggage
header is a comma-separated list of `key=value` pairs. -/

/-- Lowercase hex digit for a value below 16. -/
def hexChar (n : Nat) : Char :=
  if n < 10 then Char.ofNat (48 + n) else Char.ofNat (87 + n)

/-- Value of a lowercase hex digit. -/
def hexVal (c : Char) : Option Nat :=
  if 48 ≤ c.toNat ∧ c.toNat ≤ 57 then some (c.toNat - 48)
  else if 97 ≤ c.toNat ∧ c.toNat ≤ 102 then some (c.toNat - 87)
  else none

/-- Fixed-width big-endian hex encoding of a number. -/
def toHexFixed : Nat → Nat → List Char
  | 0, _ => []
  | w + 1, n => toHexFixed w (n / 16) ++ [hexChar (n % 16)]

/-- Parse a hex digit run (all characters must be valid digits). -/
def parseHex (l : List Char) : Option Nat :=
  l.foldl (fun acc c => acc.bind (fun a => (hexVal c).map (fun d => a * 16 + d)))
    (some 0)

lemma hexVal_hexChar_fin : ∀ i : Fin 16, hexVal (hexChar i.val) = some i.val := by
  decide

lemma hexVal_hexChar (n : Nat) (h : n < 16) : hexVal (hexChar n) = some n :=
  hexVal_hexChar_fin ⟨n, h⟩

lemma length_toHexFixed (w n : Nat) : (toHexFixed w n).length = w := by
  induction w generalizing n with
  | zero => rfl
  | succ k ih => simp [toHexFixed, ih]

lemma hex_digit_step (n w : Nat) :
    n / 16 % 16 ^ w * 16 + n % 16 = n % 16 ^ (w + 1) := by
  have hd : n % (16 * 16 ^ w) % 16 = n % 16 :=
    Nat.mod_mod_of_dvd n ⟨16 ^ w, rfl⟩
  have hq : n % (16 * 16 ^ w) / 16 = n / 16 % 16 ^ w :=
    Nat.mod_mul_right_div_self n 16 (16 ^ w)
  have hdm := Nat.div_add_mod (n % (16 * 16 ^ w)) 16
  have hp : (16 : Nat) ^ (w + 1) = 16 * 16 ^ w := by ring
  rw [hp]
  omega

lemma parseHex_toHexFixed (w n : Nat) :
    parseHex (toHexFixed w n) = some (n % 16 ^ w) := by
  induction w generalizing n with
  | zero => simp [toHexFixed, parseHex, Nat.mod_one]
  | succ k ih =>
      have hstep := ih (n / 16)
      simp only [parseHex] at hstep ⊢
      rw [toHexFixed, List.foldl_append, hstep]
      simp [hexVal_hexChar (n % 16) (Nat.mod_lt n (by norm_num)), hex_digit_step]

lemma parseHex_toHexFixed_of_lt (w n : Nat) (h : n < 16 ^ w) :
    parseHex (toHexFixed w n) = some n := by
  rw [parseHex_toHexFixed, Nat.mod_eq_of_lt h]

/-- Serialize the `version-traceid-spanid-flags` trace-context header
(version `00`, sampled flag as bit 0 of the flags byte). -/
def injectTraceparent (tid sid : Nat) (sampled : Bool) : List Char :=
  ['0', '0', '-'] ++ toHexFixed 32 tid ++ ['-'] ++ toHexFixed 16 sid ++
    ['-'] ++ toHexFixed 2 (if sampled then 1 else 0)

/-- Parse the trace-context header: version `00`, then the three
hyphen-delimited fixed-width hex fields. -/
def extractTraceparent (l : List Char) : Option (Nat × Nat × Bool) :=
  match l with
  | '0' :: '0' :: '-' :: rest =>
    match parseHex (rest.take 32), rest.drop 32 with
    | some tid, '-' :: rest2 =>
      match parseHex (rest2.take 16), rest2.drop 16 with
      | some sid, '-' :: fl =>
        if fl.length = 2 then
          match parseHex fl with
          | some f => some (tid, sid, f % 2 = 1)
          | none => none
        else none
      | _, _ => none
    | _, _ => none
  | _ => none

lemma extractTraceparent_injectTraceparent (tid sid : Nat) (sampled : Bool)
    (htid : tid < 2 ^ 128) (hsid : sid < 2 ^ 64) :
    extractTraceparent (injectTraceparent tid sid sampled) =
      some (tid, sid, sampled) := by
  have htid16 : tid < 16 ^ 32 := by norm_num at htid ⊢; exact htid
  have hsid16 : sid < 16 ^ 16 := by norm_num at hsid ⊢; exact hsid
  have key : ∀ f : Nat, f < 16 ^ 2 →
      extractTraceparent ('0' :: '0' :: '-' ::
          (toHexFixed 32 tid ++
            ('-' :: (toHexFixed 16 sid ++ ('-' :: toHexFixed 2 f))))) =
        some (tid, sid, decide (f % 2 = 1)) := by
    intro f hf
    simp only [extractTraceparent,
      List.take_left' (length_toHexFixed 32 tid),
      List.drop_left' (length_toHexFixed 32 tid),
      parseHex_toHexFixed_of_lt 32 tid htid16,
      List.take_left' (length_toHexFixed 16 sid),
      List.drop_left' (length_toHexFixed 16 sid),
      parseHex_toHexFixed_of_lt 16 sid hsid16,
      length_toHexFixed,
      parseHex_toHexFixed_of_lt 2 f hf]
    simp
  cases sampled
  · have h0 := key 0 (by norm_num)
    have hrest : injectTraceparent tid sid false =
        '0' :: '0' :: '-' ::
          (toHexFixed 32 tid ++
            ('-' :: (toHexFixed 16 sid ++ ('-' :: toHexFixed 2 0)))) := by
      simp [injectTraceparent]
    rw [hrest, h0]
    rfl
  · have h1 := key 1 (by norm_num)
    have hrest : injectTraceparent tid sid true =
        '0' :: '0' :: '-' ::
          (toHexFixed 32 tid ++
            ('-' :: (toHexFixed 16 sid ++ ('-' :: toHexFixed 2 1)))) := by
      simp [injectTraceparent]
    rw [hrest, h1]
    rfl

/-- Join parts with a separator character. -/
def joinSep (c : Char) : List (List Char) → List Char
  | [] => []
  | [p] => p
  | p :: q :: ps => p ++ c :: joinSep c (q :: ps)

/-- Split at every occurrence of the separator character. -/
def splitSep (c : Char) : List Char → List (List Char)
  | [] => [[]]
  | a :: as =>
    match splitSep c as with
    | [] => [[]]
    | h :: t => if a = c then [] :: h :: t else (a :: h) :: t

lemma splitSep_no_sep (c : Char) (l : List Char) (h : ∀ a ∈ l, a ≠ c) :
    splitSep c l = [l] := by
  induction l with
  | nil => rfl
  | cons a as ih =>
      have ha : a ≠ c := h a (List.mem_cons_self a as)
      have has : ∀ x ∈ as, x ≠ c := fun x hx => h x (List.mem_cons_of_mem a hx)
      simp [splitSep, ih has, ha]

lemma splitSep_ne_nil (c : Char) (l : List Char) : splitSep c l ≠ [] := by
  induction l with
  | nil => simp [splitSep]
  | cons a as ih =>
      simp only [splitSep]
      cases hs : splitSep c as with
      | nil => simp
      | cons h t =>
          split
          · simp
          · split <;> simp

lemma splitSep_append (c : Char) (p rest : List Char)
    (hp : ∀ a ∈ p, a ≠ c) :
    splitSep c (p ++ c :: rest) = p :: splitSep c rest := by
  induction p with
  | nil =>
      cases hs : splitSep c rest with
      | nil => exact absurd hs (splitSep_ne_nil c rest)
      | cons h t => simp [splitSep, hs]
  | cons a as ih =>
      have ha : a ≠ c := hp a (List.mem_cons_self a as)
      have has : ∀ x ∈ as, x ≠ c := fun x hx => hp x (List.mem_cons_of_mem a hx)
      have hne : splitSep c (as ++ c :: rest) = as :: splitSep c rest := ih has
      simp [splitSep, hne, ha]

lemma splitSep_joinSep (c : Char) (parts : List (List Char))
    (hne : parts ≠ []) (h : ∀ p ∈ parts, ∀ a ∈ p, a ≠ c) :
    splitSep c (joinSep c parts) = parts := by
  induction parts with
  | nil => exact absurd rfl hne
  | cons p ps ih =>
      cases ps with
      | nil =>
          simp only [joinSep]
          exact splitSep_no_sep c p (h p (List.mem_cons_self p []))
      | cons q ps2 =>
          have hp : ∀ a ∈ p, a ≠ c := h p (List.mem_cons_self p (q :: ps2))
          have hrec : ∀ r ∈ q :: ps2, ∀ a ∈ r, a ≠ c :=
            fun r hr => h r (List.mem_cons_of_mem p hr)
          have := ih (by simp) hrec
          simp only [joinSep]
          rw [splitSep_append c p _ hp, this]

/-- Split an entry at the first `=`. -/
def breakEq : List Char → Option (List Char × List Char)
  | [] => none
  | a :: as =>
      if a = '=' then some ([], as)
      else (breakEq as).map (fun pr => (a :: pr.1, pr.2))

lemma breakEq_append (k v : List Char) (hk : ∀ a ∈ k, a ≠ '=') :
    breakEq (k ++ '=' :: v) = some (k, v) := by
  induction k with
  | nil => simp [breakEq]
  | cons a as ih =>
      have ha : a ≠ '=' := hk a (List.mem_cons_self a as)
      have has : ∀ x ∈ as, x ≠ '=' := fun x hx => hk x (List.mem_cons_of_mem a hx)
      simp [breakEq, ha, ih has]

/-- Serialize one baggage entry as `key=value`. -/
def encodeEntry (kv : String × String) : List Char :=
  kv.1.data ++ '=' :: kv.2.data

/-- Parse one baggage entry at the first `=`. -/
def decodeEntry (l : List Char) : Option (String × String) :=
  (breakEq l).map (fun pr => (String.mk pr.1, String.mk pr.2))

/-- Serialize the baggage header: comma-separated `key=value` pairs. -/
def injectBaggage (entries : List (String × String)) : List Char :=
  joinSep ',' (entries.map encodeEntry)

/-- Parse the baggage header. -/
def extractBaggage (l : List Char) : Option (List (String × String)) :=
  (splitSep ',' l).mapM decodeEntry

/-- Validity of a baggage set for the comma/equals encoding: keys contain
neither `=` nor `,`; values contain no `,`. -/
def ValidEntries (entries : List (String × String)) : Prop :=
  ∀ kv ∈ entries,
    (∀ c ∈ kv.1.data, c ≠ '=' ∧ c ≠ ',') ∧ (∀ c ∈ kv.2.data, c ≠ ',')

instance (entries : List (String × String)) : Decidable (ValidEntries entries) := by
  unfold ValidEntries
  infer_instance

lemma decodeEntry_encodeEntry (kv : String × String)
    (hk : ∀ c ∈ kv.1.data, c ≠ '=') :
    decodeEntry (encodeEntry kv) = some kv := by
  obtain ⟨k, v⟩ := kv
  obtain ⟨kd⟩ := k
  obtain ⟨vd⟩ := v
  simp only [decodeEntry, encodeEntry] at hk ⊢
  rw [breakEq_append kd vd hk]
  rfl

lemma mapM_decode_encode (entries : List (String × String))
    (h : ValidEntries entries) :
    (entries.map encodeEntry).mapM decodeEntry = some entries := by
  induction entries with
  | nil => rfl
  | cons kv rest ih =>
      have hkv := h kv (List.mem_cons_self kv rest)
      have hrest : ValidEntries rest := fun x hx => h x (List.mem_cons_of_mem kv hx)
      simp only [List.map_cons, List.mapM_cons,
        decodeEntry_encodeEntry kv (fun c hc => (hkv.1 c hc).1), ih hrest]
      rfl

lemma extractBaggage_injectBaggage (entries : List (String × String))
    (hne : entries ≠ []) (h : ValidEntries entries) :
    extractBaggage (injectBaggage entries) = some entries := by
  have hparts : ∀ p ∈ entries.map encodeEntry, ∀ a ∈ p, a ≠ ',' := by
    intro p hp a hap
    obtain ⟨kv, hkv, rfl⟩ := List.mem_map.mp hp
    obtain ⟨hk, hv⟩ := h kv hkv
    rcases List.mem_append.mp hap with hmem | hmem
    · exact (hk a hmem).2
    · rcases List.mem_cons.mp hmem with rfl | hmem
      · decide
      · exact hv a hmem
  have hpne : entries.map encodeEntry ≠ [] := by
    intro habs
    exact hne (List.map_eq_nil_iff.mp habs)
  unfold extractBaggage injectBaggage
  rw [splitSep_joinSep ',' (entries.map encodeEntry) hpne hparts]
  exact mapM_decode_encode entries h

/-- A trace context, as in the spec's data model (§3): 128-bit trace id,
64-bit span id, sampled flag, baggage mapping. -/
structure TraceContext where
  traceId : Nat
  spanId : Nat
  sampled : Bool
  baggage : List (String × String)
deriving DecidableEq, Repr

/-- The two transport headers of the composite propagator; the baggage
header is absent when the baggage is empty. -/
structure Headers where
  traceparent : List Char
  baggage : Option (List Char)
deriving DecidableEq, Repr

/-- A context that the W3C-style encodings can carry: ids within their bit
widths, baggage keys free of `=` and `,`, values free of `,`. -/
def ValidContext (ctx : TraceContext) : Prop :=
  ctx.traceId < 2 ^ 128 ∧ ctx.spanId < 2 ^ 64 ∧ ValidEntries ctx.baggage

instance (ctx : TraceContext) : Decidable (ValidContext ctx) := by
  unfold ValidContext
  infer_instance

/-- `inject(context) -> headers` (spec §4.1): serialize the trace-context
header plus a separate comma-separated baggage header. -/
def inject (ctx : TraceContext) : Headers :=
  { traceparent := injectTraceparent ctx.traceId ctx.spanId ctx.sampled,
    baggage :=
      if ctx.baggage = [] then none else some (injectBaggage ctx.baggage) }

/-- `extract(headers) -> TraceContext` (spec §4.1): parse both headers;
`none` models the malformed case in which the propagator mints a fresh root
context instead. -/
def extract (h : Headers) : Option TraceContext :=
  match extractTraceparent h.traceparent with
  | none => none
  | some (tid, sid, smp) =>
      match h.baggage with
      | none =>
          some { traceId := tid, spanId := sid, sampled := smp, baggage := [] }
      | some bl =>
          match extractBaggage bl with
          | none => none
          | some entries =>
              some { traceId := tid, spanId := sid, sampled := smp,
                     baggage := entries }

/-- C6: for every valid trace context, `extract(inject(ctx))` reproduces the
same trace id, span id, sampled flag and baggage set (here even the same
baggage order), where inject and extract use the configured W3C
trace-context and baggage header encodings. -/
theorem extract_inject_roundtrip (ctx : TraceContext)
    (h : ValidContext ctx) :
    extract (inject ctx) = some ctx := by
  obtain ⟨htid, hsid, hbag⟩ := h
  obtain ⟨tid, sid, smp, bag⟩ := ctx
  simp only at htid hsid hbag
  by_cases hb : bag = []
  · subst hb
    simp [inject, extract,
      extractTraceparent_injectTraceparent tid sid smp htid hsid]
  · simp only [inject, if_neg hb, extract,
      extractTraceparent_injectTraceparent tid sid smp htid hsid,
      extractBaggage_injectBaggage bag hb hbag]

/-- A concrete valid context (ids from the W3C trace-context examples,
baggage keys used by this repository). -/
def ctxSample : TraceContext :=
  { traceId := 0x0af7651916cd43dd8448eb211c80319c,
    spanId := 0xb7ad6b7169203331,
    sampled := true,
    baggage := [("synthetic_request", "true"), ("session.id", "sess-1")] }

/-- C6 witness: the round trip applied to the concrete context. -/
theorem extract_inject_roundtrip_witness :
    ValidContext ctxSample ∧ extract (inject ctxSample) = some ctxSample :=
  ⟨by decide, extract_inject_roundtrip ctxSample (by decide)⟩

end OtelDemo
